import Mathlib

/-!
Shallow embedding of the view-layer `Document` class
(src/packages/ckeditor5-engine/src/view/document.js, first section of the file)
and of the `ToolbarView` / `StaticLayout` / `DynamicGrouping` classes
(second section of the same file), together with theorems settling the
specification claims about them.

Conventions of the embedding:
* JavaScript objects become Lean structures; object identity is modelled by a
  numeric id where the code relies on it (observers, view elements).
* `Map` becomes an association list with `Map.set` overwrite-in-place
  semantics (`setAssoc` below), preserving key insertion order exactly as a
  JavaScript `Map` does.
* Methods become pure functions from the receiver state to the updated state.
  A method that can let a JavaScript exception escape returns the mutated
  state together with the escape information, because in JavaScript the
  mutations performed before a `throw` persist.
-/

namespace CKView

/-- A live DOM element. DOM nodes are external to the repository; the
`Document` code only uses their identity and, in `createRoot`, their
`tagName`, so the model carries exactly those. -/
structure DomElem where
  id : Nat
  tagName : String
deriving DecidableEq

/-- A view root element, as produced by `Document.createRoot`:
`new ContainerElement( rootTag )`. The `ContainerElement` class itself is not
part of the sample; for the claims only the identity of the created object
(fresh per `new`, modelled by `id`) and its tag matter. -/
structure ViewElem where
  id : Nat
  tag : String
deriving DecidableEq

/-- The `engine.view.ChangeType` enum: CHILDREN, ATTRIBUTES, TEXT. -/
inductive ChangeType
  | CHILDREN
  | ATTRIBUTES
  | TEXT
deriving DecidableEq

/-- One observer instance (`engine.view.observer.Observer`).
`typeId` models the constructor function used as the key of
`Document#_observers` (observers are recognized by their constructor);
`instId` models object identity of the instance (`new Observer( this )`
yields a fresh one); `enabled` is the `enable()` / `disable()` flag;
`observed` records each `(dom element id, root name)` pair passed to
`observe( domElement, name )`. The `Observer` base class is external to the
sample (spec: observers expose `observe`, `enable`, `disable`; a fresh
instance starts disabled until `enable()` is called). -/
structure Observer where
  typeId : Nat
  instId : Nat
  enabled : Bool
  observed : List (Nat × String)
deriving DecidableEq

/-- Association-list update with JavaScript `Map.set` semantics: overwrite the
value at an existing key in place (keeping its position), otherwise append. -/
def setAssoc {α β : Type} [DecidableEq α] : List (α × β) → α → β → List (α × β)
  | [], k, v => [(k, v)]
  | (k0, v0) :: rest, k, v =>
      if k0 = k then (k, v) :: rest else (k0, v0) :: setAssoc rest k v

/-- Association-list lookup, i.e. JavaScript `Map.get` (`undefined` ↦ `none`). -/
def getAssoc {α β : Type} [DecidableEq α] : List (α × β) → α → Option β
  | [], _ => none
  | (k0, v0) :: rest, k => if k0 = k then some v0 else getAssoc rest k

/-- The `engine.view.Document` aggregate state.
`domRoots` and `viewRoots` are the two name-keyed root maps;
`observers` is `_observers` (a `Map` keyed by observer constructor, modelled
by `typeId`, in insertion order); `dirty` records the `(type, node)` pairs the
Document forwarded to `renderer.markToSync` (the Renderer itself is external
to the sample); `bindings` records `domConverter.bindElements( domRoot,
viewRoot )` calls as dom-element-id ↦ bound view element (the bound view
element is `none` when the JavaScript value was `undefined`);
`nextInstId` / `nextElemId` supply fresh object identities for `new`. -/
structure Document where
  domRoots : List (String × DomElem)
  viewRoots : List (String × ViewElem)
  observers : List Observer
  dirty : List (ChangeType × Option ViewElem)
  bindings : List (Nat × Option ViewElem)
  nextInstId : Nat
  nextElemId : Nat
deriving DecidableEq

/-- A freshly constructed `Document` (the constructor creates empty
`domRoots`, `viewRoots` and `_observers` maps). -/
def Document.new : Document :=
  { domRoots := [], viewRoots := [], observers := [], dirty := [],
    bindings := [], nextInstId := 0, nextElemId := 0 }

/-- `Document.getRoot( name )`: `this.viewRoots.get( name )`. -/
def Document.getRoot (d : Document) (name : String) : Option ViewElem :=
  getAssoc d.viewRoots name

/-- `Document.getDomRoot( name )`: `this.domRoots.get( name )`. -/
def Document.getDomRoot (d : Document) (name : String) : Option DomElem :=
  getAssoc d.domRoots name

/-- `Document.getObserver( Observer )`: `this._observers.get( Observer )`,
i.e. lookup by constructor identity; `undefined` ↦ `none`. -/
def Document.getObserver (d : Document) (t : Nat) : Option Observer :=
  d.observers.find? (fun o => o.typeId == t)

/-- `Document.addObserver( Observer )`: if an observer of this constructor is
already cached, return it unchanged; otherwise construct one
(`new Observer( this )`, fresh instance, initially disabled), store it in
`_observers`, call `observer.observe( domElement, name )` for every existing
DOM root, call `observer.enable()`, and return it. The stored map entry and
the returned value alias the same object, so the model stores and returns the
final field values. -/
def Document.addObserver (d : Document) (t : Nat) : Observer × Document :=
  match d.observers.find? (fun o => o.typeId == t) with
  | some o => (o, d)
  | none =>
      let o0 : Observer :=
        { typeId := t, instId := d.nextInstId, enabled := false, observed := [] }
      let o1 : Observer :=
        { o0 with observed := o0.observed ++ d.domRoots.map (fun p => (p.2.id, p.1)) }
      let o2 : Observer := { o1 with enabled := true }
      (o2, { d with observers := d.observers ++ [o2], nextInstId := d.nextInstId + 1 })

/-- `Document.attachDomRoot( domRoot, name )`: reads the view root of that
name (possibly `undefined`), then unconditionally `this.domRoots.set( name,
domRoot )`, `this.domConverter.bindElements( domRoot, viewRoot )`,
`this.renderer.markToSync( 'CHILDREN', viewRoot )`, and
`observer.observe( domRoot, name )` for every registered observer. There is
no guard on the view root existing. -/
def Document.attachDomRoot (d : Document) (domRoot : DomElem) (name : String) : Document :=
  let viewRoot : Option ViewElem := d.getRoot name
  let d1 := { d with domRoots := setAssoc d.domRoots name domRoot }
  let d2 := { d1 with bindings := setAssoc d1.bindings domRoot.id viewRoot }
  let d3 := { d2 with dirty := d2.dirty ++ [(ChangeType.CHILDREN, viewRoot)] }
  { d3 with observers :=
      d3.observers.map (fun o => { o with observed := o.observed ++ [(domRoot.id, name)] }) }

/-- `Document.createRoot( domRoot, name )`: the root tag is the string itself
or the DOM element's `tagName`; a fresh `ContainerElement` is created and
`this.viewRoots.set( name, viewRoot )` registers it unconditionally (a `Map`
overwrite when the name is taken). If a DOM element (not a tag string) was
passed, `attachDomRoot` is called. The subscription of the new root's
`change` event (which forwards into `renderer.markToSync`) concerns later
view-tree mutations, which are outside the claims, and is not modelled. -/
def Document.createRoot (d : Document) (domRoot : DomElem ⊕ String) (name : String) :
    ViewElem × Document :=
  let rootTag := match domRoot with
    | Sum.inl e => e.tagName
    | Sum.inr s => s
  let viewRoot : ViewElem := { id := d.nextElemId, tag := rootTag }
  let d1 := { d with viewRoots := setAssoc d.viewRoots name viewRoot,
                     nextElemId := d.nextElemId + 1 }
  match domRoot with
  | Sum.inl e => (viewRoot, d1.attachDomRoot e name)
  | Sum.inr _ => (viewRoot, d1)

/-- `Document.render()`: disable every registered observer, call
`this.renderer.render()`, then enable every registered observer — as three
sequential statements with no `try` / `finally`. The Renderer is external to
the sample, so its reconciliation step is abstracted by the flag
`rendererThrows` saying whether `renderer.render()` throws; the renderer's
own DOM mutations are irrelevant to the observer flags. The result pairs the
final `Document` state with `true` when an exception escaped `render()`
(JavaScript state mutations performed before a `throw` persist). -/
def Document.render (d : Document) (rendererThrows : Bool) : Document × Bool :=
  let d1 := { d with observers := d.observers.map (fun o => { o with enabled := false }) }
  if rendererThrows then
    (d1, true)
  else
    ({ d1 with observers := d1.observers.map (fun o => { o with enabled := true }) }, false)

end CKView

namespace CKToolbar

/-- A toolbar item view. `id` models object identity (CKEditor collections
never hold the same object twice); `width` is the horizontal space the item
occupies in the rendered toolbar row — geometry is produced by the browser's
layout engine, which is external to the repository, so it is modelled as one
number per item (see `areItemsOverflowing`). -/
structure TItem where
  id : Nat
  width : Nat
deriving DecidableEq

/-- A member of `ToolbarView#children`: the `itemsView` added by the
`ToolbarView` constructor, and the `ToolbarSeparatorView` plus the
grouped-items dropdown that `DynamicGrouping._groupLastItem` appends. -/
inductive TChild
  | itemsView
  | separator
  | dropdown
deriving DecidableEq

/-- A member of `ToolbarView#focusables`: an item view or the grouped-items
dropdown. -/
inductive Focusable
  | item (i : TItem)
  | dropdown
deriving DecidableEq

/-- The state of one `ToolbarView` constructed with `shouldGroupWhenFull`
(so with a `DynamicGrouping` behavior attached).
`items`, `focusables` and `viewChildren` are the `ToolbarView` collections;
`ungroupedItems` and `groupedItems` are the two `DynamicGrouping`
collections; `trackerHasDropdown` says whether the dropdown's element is in
the focus tracker; `resizeObserver` is `DynamicGrouping#resizeObserver`,
`null` (`none`) until `render()` runs `_enableGroupingOnResize`;
`dropdownDestroyed` records `groupedItemsDropdown.destroy()`;
`attached` models `viewElement.ownerDocument.body.contains( viewElement )`.
The remaining fields are the browser-side geometry the algorithm measures:
the toolbar content-box width, the cached horizontal padding, and the width
taken by the separator plus the grouped-items dropdown when present. -/
structure ToolbarState where
  items : List TItem
  ungroupedItems : List TItem
  groupedItems : List TItem
  viewChildren : List TChild
  focusables : List Focusable
  trackerHasDropdown : Bool
  resizeObserver : Option Nat
  dropdownDestroyed : Bool
  attached : Bool
  containerWidth : Nat
  padding : Nat
  sepDropdownWidth : Nat
deriving DecidableEq

/-- The state right after `new ToolbarView( locale, { shouldGroupWhenFull:
true } )`: all collections empty except `children = [ itemsView ]` (added by
the `ToolbarView` constructor before the behavior attaches its listeners),
`resizeObserver = null`, nothing grouped, element not yet in the document. -/
def initToolbar (containerWidth padding sepDropdownWidth : Nat) : ToolbarState :=
  { items := [], ungroupedItems := [], groupedItems := [],
    viewChildren := [TChild.itemsView], focusables := [],
    trackerHasDropdown := false, resizeObserver := none,
    dropdownDestroyed := false, attached := false,
    containerWidth := containerWidth, padding := padding,
    sepDropdownWidth := sepDropdownWidth }

/-- `DynamicGrouping._updateFocusCycleableItems`: clear `focusables`, re-add
every ungrouped item in order, then add the grouped-items dropdown when
`groupedItems.length` is non-zero. -/
def updateFocusCycleableItems (s : ToolbarState) : ToolbarState :=
  { s with focusables :=
      s.ungroupedItems.map Focusable.item
        ++ (if s.groupedItems.length ≠ 0 then [Focusable.dropdown] else []) }

/-! The next definitions are the collection operations on `ungroupedItems`
and `ToolbarView#children`. The `DynamicGrouping` constructor registers
`_updateFocusCycleableItems` as the `add` and `remove` handler of both
collections, and CKEditor collections fire those events synchronously right
after the mutation, so each operation ends with the recomputation.
(`groupedItems` has no such handler, so mutations of it appear inline in the
functions below without a recomputation.) -/

/-- `ungroupedItems.add( x )` (append), followed by the registered
`_updateFocusCycleableItems` handler. -/
def ungroupedAdd (s : ToolbarState) (x : TItem) : ToolbarState :=
  updateFocusCycleableItems { s with ungroupedItems := s.ungroupedItems ++ [x] }

/-- `ungroupedItems.add( x, i )` (insert at index), followed by the handler. -/
def ungroupedInsert (s : ToolbarState) (i : Nat) (x : TItem) : ToolbarState :=
  updateFocusCycleableItems { s with ungroupedItems := s.ungroupedItems.insertIdx i x }

/-- `ungroupedItems.remove( ungroupedItems.last )`, followed by the handler.
Collections hold each object at most once, so removing the last member is
`dropLast`. -/
def ungroupedRemoveLast (s : ToolbarState) : ToolbarState :=
  updateFocusCycleableItems { s with ungroupedItems := s.ungroupedItems.dropLast }

/-- `ungroupedItems.remove( x )` removal by reference, followed by the
handler. When `x` is not a member the model leaves the collection unchanged
(the real collection surfaces a collection-remove-404 error instead of
removing anything; in either semantics nothing is removed from any
collection, which is what the affected claim is about). -/
def ungroupedErase (s : ToolbarState) (x : TItem) : ToolbarState :=
  updateFocusCycleableItems { s with ungroupedItems := s.ungroupedItems.erase x }

/-- `view.children.add( c )`, followed by the handler. -/
def childrenAdd (s : ToolbarState) (c : TChild) : ToolbarState :=
  updateFocusCycleableItems { s with viewChildren := s.viewChildren ++ [c] }

/-- `view.children.remove( c )` by reference, followed by the handler. -/
def childrenErase (s : ToolbarState) (c : TChild) : ToolbarState :=
  updateFocusCycleableItems { s with viewChildren := s.viewChildren.erase c }

/-- `view.children.remove( view.children.last )`, followed by the handler. -/
def childrenRemoveLast (s : ToolbarState) : ToolbarState :=
  updateFocusCycleableItems { s with viewChildren := s.viewChildren.dropLast }

/-- Total width of a list of items, as laid out in one toolbar row. -/
def sumWidths (l : List TItem) : Nat := (l.map TItem.width).sum

/-- Modelled from the spec: the trailing edge (`lastChildRect.right` with the
toolbar's left edge at 0) of the last of the toolbar's children. Real
geometry comes from the browser's layout engine (`Rect`), which is external
to the repository; the spec describes the measurement as the last item's
trailing edge in a single row, so the model lays the ungrouped items out
linearly and appends the separator-plus-dropdown block when grouped items
exist. -/
def lastChildRight (s : ToolbarState) : Nat :=
  sumWidths s.ungroupedItems
    + (if s.groupedItems.length = 0 then 0 else s.sepDropdownWidth)

/-- `DynamicGrouping._areItemsOverflowing`: an empty toolbar cannot overflow;
otherwise (in left-to-right mode) compare `lastChildRect.right >
toolbarRect.right - cachedPadding`. The comparison is rearranged to
`toolbarRect.right < lastChildRect.right + padding` so that it stays in ℕ;
the padding cache always holds the (stable) computed style value, so the
cache read is modelled by the `padding` field directly. -/
def areItemsOverflowing (s : ToolbarState) : Bool :=
  if s.ungroupedItems.length = 0 then false
  else decide (s.containerWidth < lastChildRight s + s.padding)

/-- `DynamicGrouping._groupLastItem`: when nothing is grouped yet, first add
a `ToolbarSeparatorView` and the grouped-items dropdown to `view.children`
and put the dropdown's element in the focus tracker; then
`groupedItems.add( ungroupedItems.remove( ungroupedItems.last ), 0 )` — the
removal (and its focus-cycle recomputation) happens while evaluating the
argument, after which the removed item is inserted at the front of
`groupedItems`. The `getLast? = none` branch (empty `ungroupedItems`) is
unreachable from the call sites, which are all guarded by
`_areItemsOverflowing` or by an explicit `groupedItems.length` check. -/
def groupLastItem (s : ToolbarState) : ToolbarState :=
  match s.ungroupedItems.getLast? with
  | none => s
  | some x =>
      let s1 :=
        if s.groupedItems.length = 0 then
          { childrenAdd (childrenAdd s TChild.separator) TChild.dropdown with
              trackerHasDropdown := true }
        else s
      let s2 := ungroupedRemoveLast s1
      { s2 with groupedItems := x :: s2.groupedItems }

/-- `DynamicGrouping._ungroupFirstItem`:
`ungroupedItems.add( groupedItems.remove( groupedItems.first ) )` — the
removal from `groupedItems` happens while evaluating the argument, then the
item is appended to `ungroupedItems` (firing the focus-cycle recomputation);
afterwards, when `groupedItems` became empty, the dropdown and then the last
child (the separator) are removed from `view.children` and the dropdown's
element leaves the focus tracker. The empty-`groupedItems` branch is
unreachable from the call sites, which are guarded by
`groupedItems.length`. -/
def ungroupFirstItem (s : ToolbarState) : ToolbarState :=
  match s.groupedItems with
  | [] => s
  | g :: gs =>
      let s1 := ungroupedAdd { s with groupedItems := gs } g
      if s1.groupedItems.length = 0 then
        { childrenRemoveLast (childrenErase s1 TChild.dropdown) with
            trackerHasDropdown := false }
      else s1

/-- The grouping loop of `_updateGrouping`:
`while ( this._areItemsOverflowing ) { this._groupLastItem(); }`.
Returns the final state together with the number of iterations (the counter
also witnesses `wereItemsGrouped`, which the code sets on any iteration). -/
def groupLoop (s : ToolbarState) : ToolbarState × Nat :=
  if h : areItemsOverflowing s then
    let p := groupLoop (groupLastItem s)
    (p.1, p.2 + 1)
  else (s, 0)
termination_by s.ungroupedItems.length
decreasing_by
  have hne : s.ungroupedItems ≠ [] := by
    intro hnil
    simp [areItemsOverflowing, hnil] at h
  have hlen : 0 < s.ungroupedItems.length := List.length_pos.mpr hne
  cases hx : s.ungroupedItems.getLast? with
  | none => exact absurd (List.getLast?_eq_none_iff.mp hx) hne
  | some x =>
      unfold groupLastItem
      rw [hx]
      by_cases hg : s.groupedItems.length = 0
      · simp [hg, ungroupedRemoveLast, updateFocusCycleableItems, childrenAdd,
          List.length_dropLast]
        omega
      · simp [hg, ungroupedRemoveLast, updateFocusCycleableItems,
          List.length_dropLast]
        omega

/-- The ungrouping loop of `_updateGrouping`:
`while ( this.groupedItems.length && !this._areItemsOverflowing ) {
this._ungroupFirstItem(); }`, with its iteration count. -/
def ungroupLoop (s : ToolbarState) : ToolbarState × Nat :=
  if h : s.groupedItems.length ≠ 0 ∧ ¬ areItemsOverflowing s then
    let p := ungroupLoop (ungroupFirstItem s)
    (p.1, p.2 + 1)
  else (s, 0)
termination_by s.groupedItems.length
decreasing_by
  cases hg : s.groupedItems with
  | nil => exact absurd (by simp [hg]) h.1
  | cons g gs =>
      unfold ungroupFirstItem
      rw [hg]
      by_cases hgs : gs = []
      · simp [hg, hgs, childrenRemoveLast, childrenErase, updateFocusCycleableItems,
          ungroupedAdd]
      · simp [hg, hgs, ungroupedAdd, updateFocusCycleableItems]

/-- `DynamicGrouping._updateGrouping`: return immediately while the toolbar
element is not attached to the visible document; otherwise run the grouping
loop; then, only when no item was grouped in this pass (`wereItemsGrouped`
unset, i.e. zero iterations) and grouped items exist, run the ungrouping
loop and, if its last speculative move left the toolbar overflowing, undo it
by re-grouping that single item. -/
def updateGrouping (s : ToolbarState) : ToolbarState :=
  if s.attached = false then s
  else if (groupLoop s).2 = 0 ∧ (groupLoop s).1.groupedItems.length ≠ 0 then
    (if areItemsOverflowing (ungroupLoop (groupLoop s).1).1 then
       groupLastItem (ungroupLoop (groupLoop s).1).1
     else (ungroupLoop (groupLoop s).1).1)
  else (groupLoop s).1

/-- The `view.items` `add` handler registered by the `DynamicGrouping`
constructor, modelled together with the insertion into `view.items` that
fires it: the new item goes into `groupedItems` at the offset index when
`index > ungroupedItems.length`, else into `ungroupedItems` at the index;
then `_updateGrouping` runs. -/
def itemsAdd (s : ToolbarState) (x : TItem) (index : Nat) : ToolbarState :=
  let s0 := { s with items := s.items.insertIdx index x }
  let s1 :=
    if index > s0.ungroupedItems.length then
      { s0 with groupedItems :=
          s0.groupedItems.insertIdx (index - s0.ungroupedItems.length) x }
    else
      ungroupedInsert s0 index x
  updateGrouping s1

/-- The `view.items` `remove` handler registered by the `DynamicGrouping`
constructor, modelled together with the removal from `view.items` that fires
it (the event carries the removed item and the index it was removed from):
the item is removed from `groupedItems` when `index > ungroupedItems.length`,
else from `ungroupedItems`; then `_updateGrouping` runs. -/
def itemsRemove (s : ToolbarState) (x : TItem) (index : Nat) : ToolbarState :=
  let s0 := { s with items := s.items.eraseIdx index }
  let s1 :=
    if index > s0.ungroupedItems.length then
      { s0 with groupedItems := s0.groupedItems.erase x }
    else
      ungroupedErase s0 x
  updateGrouping s1

/-- `ToolbarView.render` as it affects the `DynamicGrouping` behavior:
`_behavior.render( this )` stores the element and runs
`_enableGroupingOnResize`, which creates the resize observer (so
`resizeObserver` is no longer `null`), observes the element, and runs
`_updateGrouping` once. `inDocument` says whether the rendered element is
inside the visible document body. -/
def renderToolbar (s : ToolbarState) (inDocument : Bool) : ToolbarState :=
  let s1 := { s with attached := inDocument, resizeObserver := some 0 }
  updateGrouping s1

/-- `DynamicGrouping.destroy`: `groupedItemsDropdown.destroy()` first, then
`this.resizeObserver.disconnect()` unconditionally — a JavaScript
`TypeError` when `resizeObserver` is still `null`, i.e. when `render()` has
never run `_enableGroupingOnResize`. -/
def destroyGrouping (s : ToolbarState) : Except String ToolbarState :=
  let s1 := { s with dropdownDestroyed := true }
  match s.resizeObserver with
  | none => Except.error "TypeError: cannot call disconnect of null resizeObserver"
  | some _ => Except.ok s1

/-- A toolbar item as produced by `ToolbarView.fillFromConfig`: a
`ToolbarSeparatorView` for the `"|"` sentinel, or the view the component
factory creates for a recognized name (the factory is an external
collaborator, so the created view is identified by the name it was created
for). -/
inductive ToolbarItemView
  | separator
  | component (name : String)
deriving DecidableEq

/-- One step of `ToolbarView.fillFromConfig`'s `config.map( name => ... )`
callback: `"|"` adds a `ToolbarSeparatorView` to `this.items`; a name the
factory `has` adds `factory.create( name )`; any other name only emits the
`toolbarview-item-unavailable` console warning (second component) and adds
nothing — no exception is thrown. -/
def fillStep (factoryHas : String → Bool) (acc : List ToolbarItemView × List String)
    (name : String) : List ToolbarItemView × List String :=
  if name = "|" then (acc.1 ++ [ToolbarItemView.separator], acc.2)
  else if factoryHas name then (acc.1 ++ [ToolbarItemView.component name], acc.2)
  else (acc.1, acc.2 ++ [name])

/-- `ToolbarView.fillFromConfig( config, factory )`: iterate the
configuration in order, accumulating the items added to `this.items` and the
warnings printed for unresolvable names. -/
def fillFromConfig (config : List String) (factoryHas : String → Bool) :
    List ToolbarItemView × List String :=
  config.foldl (fillStep factoryHas) ([], [])

/-- The per-entry outcome `fillFromConfig` is claimed to produce: a separator
for `"|"`, the factory item for a recognized name, nothing otherwise. -/
def configEntry (factoryHas : String → Bool) (name : String) : Option ToolbarItemView :=
  if name = "|" then some ToolbarItemView.separator
  else if factoryHas name then some (ToolbarItemView.component name)
  else none

/-- The derived value the spec claims for `ToolbarView#focusables` under
`DynamicGrouping`: the ungrouped items in order, then the grouped-items
dropdown exactly when grouped items exist. -/
def focusablesSpec (s : ToolbarState) : List Focusable :=
  s.ungroupedItems.map Focusable.item
    ++ (if s.groupedItems.length ≠ 0 then [Focusable.dropdown] else [])

/-- Concrete toolbar items used by the concrete-state theorems below. -/
def itemA : TItem := { id := 0, width := 1 }

def itemB : TItem := { id := 1, width := 1 }

def itemC : TItem := { id := 2, width := 3 }

def itemD : TItem := { id := 3, width := 3 }

/-- A rendered, attached toolbar whose two 3-wide ungrouped items overflow a
4-wide container (padding 0, separator-plus-dropdown block of width 1). -/
def exToolbar : ToolbarState :=
  { items := [itemC, itemD], ungroupedItems := [itemC, itemD], groupedItems := [],
    viewChildren := [TChild.itemsView],
    focusables := [Focusable.item itemC, Focusable.item itemD],
    trackerHasDropdown := false, resizeObserver := some 0,
    dropdownDestroyed := false, attached := true,
    containerWidth := 4, padding := 0, sepDropdownWidth := 1 }

/-- A toolbar in which one item is grouped (`items = [itemA, itemB]`,
`ungroupedItems = [itemA]`, `groupedItems = [itemB]`, separator and dropdown
present) and whose element is currently not inside the visible document body
(for example after the editor element was detached), so `_updateGrouping`
returns immediately. -/
def boundaryToolbar : ToolbarState :=
  { items := [itemA, itemB], ungroupedItems := [itemA], groupedItems := [itemB],
    viewChildren := [TChild.itemsView, TChild.separator, TChild.dropdown],
    focusables := [Focusable.item itemA, Focusable.dropdown],
    trackerHasDropdown := true, resizeObserver := some 0,
    dropdownDestroyed := false, attached := false,
    containerWidth := 1, padding := 0, sepDropdownWidth := 1 }

end CKToolbar

namespace CKView

/-! ### Theorems: association lists and the Document claims -/

theorem getAssoc_setAssoc_self {α β : Type} [DecidableEq α]
    (m : List (α × β)) (k : α) (v : β) : getAssoc (setAssoc m k v) k = some v := by
  induction m with
  | nil => simp [setAssoc, getAssoc]
  | cons p rest ih =>
      by_cases h : p.1 = k
      · simp [setAssoc, h, getAssoc]
      · simp [setAssoc, h, getAssoc, ih]

/-! ### Theorems about the Document claims -/

/-- C1: the claim states that the disable/enable bracket of
`Document.render()` is exception-safe, i.e. every observer is re-enabled even
when the Renderer's reconciliation step throws. The code has no
`try` / `finally`: evaluating `render` on a document holding one registered,
enabled observer shows that when `renderer.render()` throws, the exception
escapes and the observer is left disabled, while the normal path re-enables
it. This refutes the exception-safety stated by the claim and by the spec's
own requirement. -/
theorem C1_render_not_exception_safe :
    ((CKView.Document.new.addObserver 7).1.enabled = true)
    ∧ (((CKView.Document.new.addObserver 7).2.render true).2 = true)
    ∧ (((CKView.Document.new.addObserver 7).2.render true).1.observers.map
        (fun o => o.enabled) = [false])
    ∧ (((CKView.Document.new.addObserver 7).2.render false).1.observers.map
        (fun o => o.enabled) = [true]) :=
  ⟨rfl, rfl, rfl, rfl⟩

/-- C4 counterexample: the claim states that `createRoot` with an
already-registered name fails rather than silently overwriting. On the code,
registering "main" twice raises no error: the second call replaces the first
view root (`Map.set` overwrite), so afterwards `getRoot "main"` is the second
root, not the first. -/
theorem C4_createRoot_duplicate_name_counterexample :
    ((CKView.Document.new.createRoot (Sum.inr "div") "main").2.getRoot "main"
      = some { id := 0, tag := "div" })
    ∧ (((CKView.Document.new.createRoot (Sum.inr "div") "main").2.createRoot
        (Sum.inr "p") "main").2.getRoot "main" = some { id := 1, tag := "p" })
    ∧ (some ({ id := 1, tag := "p" } : CKView.ViewElem)
        ≠ some ({ id := 0, tag := "div" } : CKView.ViewElem)) :=
  ⟨rfl, rfl, by decide⟩

/-- C4 (amended): calling `createRoot` with a name that is already registered
does not fail: it silently overwrites — the registry afterwards maps the name
to the newly created root, and the previously registered root is no longer
retrievable under that name. -/
theorem C4_createRoot_silently_overwrites (d : CKView.Document) (tag name : String)
    (r : CKView.ViewElem) (_hreg : d.getRoot name = some r)
    (hfresh : r.id ≠ d.nextElemId) :
    ((d.createRoot (Sum.inr tag) name).2.getRoot name
      = some (d.createRoot (Sum.inr tag) name).1)
    ∧ ((d.createRoot (Sum.inr tag) name).2.getRoot name ≠ some r) := by
  have hget : (d.createRoot (Sum.inr tag) name).2.getRoot name
      = some { id := d.nextElemId, tag := tag } := by
    simp [CKView.Document.createRoot, CKView.Document.getRoot,
      CKView.getAssoc_setAssoc_self]
  refine ⟨by simpa [CKView.Document.createRoot] using hget, ?_⟩
  rw [hget]
  intro hcontra
  exact hfresh (by injection hcontra with h; rw [← h])

/-- C4 witness: instantiates the amended theorem on a concrete document in
which "main" is already registered. -/
theorem C4_createRoot_overwrite_witness :
    (((CKView.Document.new.createRoot (Sum.inr "div") "main").2.createRoot
        (Sum.inr "p") "main").2.getRoot "main"
      = some ((CKView.Document.new.createRoot (Sum.inr "div") "main").2.createRoot
        (Sum.inr "p") "main").1)
    ∧ (((CKView.Document.new.createRoot (Sum.inr "div") "main").2.createRoot
        (Sum.inr "p") "main").2.getRoot "main"
        ≠ some { id := 0, tag := "div" }) :=
  C4_createRoot_silently_overwrites
    (CKView.Document.new.createRoot (Sum.inr "div") "main").2 "p" "main"
    { id := 0, tag := "div" } rfl (by decide)

/-- C5 counterexample: the claim states that `attachDomRoot` on a name with
no view root fails or is a no-op and records no DOM-root pairing. On the
code, attaching to a fresh document neither fails nor no-ops: afterwards
`getDomRoot "main"` returns the element even though `getRoot "main"` is still
`undefined`. -/
theorem C5_attachDomRoot_records_counterexample :
    (CKView.Document.new.getRoot "main" = none)
    ∧ ((CKView.Document.new.attachDomRoot { id := 5, tagName := "div" } "main").getDomRoot
        "main" = some { id := 5, tagName := "div" })
    ∧ ((CKView.Document.new.attachDomRoot { id := 5, tagName := "div" } "main").getRoot
        "main" = none) :=
  ⟨rfl, rfl, rfl⟩

/-- C5 (amended): `attachDomRoot( domElement, name )` when no view root of
that name exists does not fail and is not a no-op: it unconditionally records
the DOM-root pairing under the name (so `getDomRoot name` returns the
element while `getRoot name` is still `undefined`), binds the DOM element to
`undefined` in the converter, and marks `( 'CHILDREN', undefined )` dirty. -/
theorem C5_attachDomRoot_no_failure (d : CKView.Document) (e : CKView.DomElem)
    (name : String) (h : d.getRoot name = none) :
    ((d.attachDomRoot e name).getDomRoot name = some e)
    ∧ ((d.attachDomRoot e name).getRoot name = none)
    ∧ (CKView.getAssoc (d.attachDomRoot e name).bindings e.id = some none)
    ∧ ((d.attachDomRoot e name).dirty = d.dirty ++ [(CKView.ChangeType.CHILDREN, none)]) := by
  refine ⟨?_, ?_, ?_, ?_⟩
  · simp [CKView.Document.attachDomRoot, CKView.Document.getDomRoot,
      CKView.getAssoc_setAssoc_self]
  · simpa [CKView.Document.attachDomRoot, CKView.Document.getRoot] using h
  · simp [CKView.Document.attachDomRoot, h, CKView.getAssoc_setAssoc_self]
  · simp [CKView.Document.attachDomRoot, h]

/-- C5 witness: instantiates the amended theorem on a fresh document with a
concrete DOM element. -/
theorem C5_attachDomRoot_witness :
    ((CKView.Document.new.attachDomRoot { id := 5, tagName := "div" } "main").getDomRoot
      "main" = some { id := 5, tagName := "div" })
    ∧ ((CKView.Document.new.attachDomRoot { id := 5, tagName := "div" } "main").getRoot
        "main" = none)
    ∧ (CKView.getAssoc
        (CKView.Document.new.attachDomRoot { id := 5, tagName := "div" } "main").bindings 5
        = some none)
    ∧ ((CKView.Document.new.attachDomRoot { id := 5, tagName := "div" } "main").dirty
        = [] ++ [(CKView.ChangeType.CHILDREN, none)]) :=
  C5_attachDomRoot_no_failure CKView.Document.new { id := 5, tagName := "div" } "main" rfl

/-- Registering an observer caches the returned instance under its type. -/
theorem getObserver_addObserver_self (d : Document) (t : Nat) :
    (d.addObserver t).2.getObserver t = some (d.addObserver t).1 := by
  unfold Document.getObserver Document.addObserver
  cases hf : d.observers.find? (fun o => o.typeId == t) with
  | some o => simp [hf]
  | none => simp [hf, List.find?_append]

/-- C6: `addObserver` is idempotent by constructor identity. The first call
for an unregistered type constructs one instance (consuming a fresh instance
id), attaches it to all existing DOM roots, enables it and caches it; a
second call for the same type returns the identical cached instance and
leaves the whole document state unchanged (so nothing is constructed,
re-attached or re-enabled); `getObserver` returns `undefined` for a type that
was never registered — fresh documents have no observers, and registering a
different type preserves the absence. -/
theorem C6_addObserver_idempotent (d : Document) (t u : Nat) :
    ((d.addObserver t).2.addObserver t = ((d.addObserver t).1, (d.addObserver t).2))
    ∧ (d.getObserver t = none →
        (d.addObserver t).1.enabled = true
        ∧ (d.addObserver t).1.instId = d.nextInstId
        ∧ (d.addObserver t).1.observed = d.domRoots.map (fun p => (p.2.id, p.1))
        ∧ (d.addObserver t).2.getObserver t = some (d.addObserver t).1
        ∧ (d.addObserver t).2.nextInstId = d.nextInstId + 1)
    ∧ (Document.new.getObserver t = none)
    ∧ (u ≠ t → d.getObserver t = none → (d.addObserver u).2.getObserver t = none) := by
  refine ⟨?_, ?_, rfl, ?_⟩
  · have h := getObserver_addObserver_self d t
    unfold Document.getObserver at h
    set A := d.addObserver t with hA
    conv_lhs => unfold Document.addObserver
    rw [h]
  · intro hnone
    unfold Document.getObserver at hnone
    refine ⟨?_, ?_, ?_, getObserver_addObserver_self d t, ?_⟩ <;>
      simp [Document.addObserver, hnone]
  · intro hne hnone
    unfold Document.getObserver at hnone ⊢
    unfold Document.addObserver
    cases hf : d.observers.find? (fun o => o.typeId == u) with
    | some o => simpa [hf] using hnone
    | none =>
        simp only [hf]
        rw [List.find?_append]
        simp [hnone, hne]

/-- C6 witness: the concrete facts for type 3 on a fresh document, with type
4 as the distinct other type. -/
theorem C6_addObserver_witness :
    ((Document.new.addObserver 3).2.addObserver 3
      = ((Document.new.addObserver 3).1, (Document.new.addObserver 3).2))
    ∧ ((Document.new.addObserver 3).1.enabled = true)
    ∧ ((Document.new.addObserver 3).2.getObserver 3
        = some (Document.new.addObserver 3).1)
    ∧ ((Document.new.addObserver 4).2.getObserver 3 = none) :=
  ⟨(C6_addObserver_idempotent Document.new 3 4).1,
   ((C6_addObserver_idempotent Document.new 3 4).2.1 rfl).1,
   ((C6_addObserver_idempotent Document.new 3 4).2.1 rfl).2.2.2.1,
   (C6_addObserver_idempotent Document.new 3 4).2.2.2 (by decide) rfl⟩

end CKView

namespace CKToolbar

/-! ### Facts about the grouping algorithm -/

theorem groupLastItem_none {s : ToolbarState} (hx : s.ungroupedItems.getLast? = none) :
    groupLastItem s = s := by
  unfold groupLastItem
  rw [hx]

theorem groupLastItem_some {s : ToolbarState} {x : TItem}
    (hx : s.ungroupedItems.getLast? = some x) :
    groupLastItem s =
      (let s1 :=
        if s.groupedItems.length = 0 then
          { childrenAdd (childrenAdd s TChild.separator) TChild.dropdown with
              trackerHasDropdown := true }
        else s
       let s2 := ungroupedRemoveLast s1
       { s2 with groupedItems := x :: s2.groupedItems }) := by
  unfold groupLastItem
  rw [hx]

theorem ungroupFirstItem_nil {s : ToolbarState} (hg : s.groupedItems = []) :
    ungroupFirstItem s = s := by
  unfold ungroupFirstItem
  rw [hg]

theorem ungroupFirstItem_cons {s : ToolbarState} {g : TItem} {gs : List TItem}
    (hg : s.groupedItems = g :: gs) :
    ungroupFirstItem s =
      (let s1 := ungroupedAdd { s with groupedItems := gs } g
       if s1.groupedItems.length = 0 then
         { childrenRemoveLast (childrenErase s1 TChild.dropdown) with
             trackerHasDropdown := false }
       else s1) := by
  unfold ungroupFirstItem
  rw [hg]

theorem areItemsOverflowing_nil {s : ToolbarState} (h : s.ungroupedItems = []) :
    areItemsOverflowing s = false := by
  simp [areItemsOverflowing, h]

theorem overflow_ne_nil {s : ToolbarState} (h : areItemsOverflowing s = true) :
    s.ungroupedItems ≠ [] := by
  intro hnil
  rw [areItemsOverflowing_nil hnil] at h
  exact Bool.false_ne_true h

theorem groupLastItem_length (s : ToolbarState) (h : s.ungroupedItems ≠ []) :
    (groupLastItem s).ungroupedItems.length < s.ungroupedItems.length := by
  match hx : s.ungroupedItems.getLast? with
  | none =>
      rw [List.getLast?_eq_none_iff] at hx
      exact absurd hx h
  | some x =>
      have hlen : 0 < s.ungroupedItems.length := List.length_pos.mpr h
      rw [groupLastItem_some hx]
      by_cases hg : s.groupedItems.length = 0
      · simp [hg, ungroupedRemoveLast, updateFocusCycleableItems, childrenAdd,
          List.length_dropLast]
        omega
      · simp [hg, ungroupedRemoveLast, updateFocusCycleableItems, List.length_dropLast]
        omega

theorem ungroupFirstItem_length (s : ToolbarState) (h : s.groupedItems ≠ []) :
    (ungroupFirstItem s).groupedItems.length < s.groupedItems.length := by
  match hg : s.groupedItems with
  | [] => exact absurd hg h
  | g :: gs =>
      rw [ungroupFirstItem_cons hg]
      by_cases hgs : gs = []
      · simp [hg, hgs, childrenRemoveLast, childrenErase, updateFocusCycleableItems,
          ungroupedAdd]
      · simp [hg, hgs, ungroupedAdd, updateFocusCycleableItems]

theorem groupLastItem_fields (s : ToolbarState) :
    (groupLastItem s).attached = s.attached
    ∧ (groupLastItem s).resizeObserver = s.resizeObserver
    ∧ (groupLastItem s).containerWidth = s.containerWidth
    ∧ (groupLastItem s).padding = s.padding
    ∧ (groupLastItem s).sepDropdownWidth = s.sepDropdownWidth
    ∧ (groupLastItem s).items = s.items := by
  match hx : s.ungroupedItems.getLast? with
  | none => rw [groupLastItem_none hx]; exact ⟨rfl, rfl, rfl, rfl, rfl, rfl⟩
  | some x =>
      rw [groupLastItem_some hx]
      by_cases hg : s.groupedItems.length = 0 <;>
        simp [hg, ungroupedRemoveLast, updateFocusCycleableItems, childrenAdd]

theorem ungroupFirstItem_fields (s : ToolbarState) :
    (ungroupFirstItem s).attached = s.attached
    ∧ (ungroupFirstItem s).resizeObserver = s.resizeObserver
    ∧ (ungroupFirstItem s).containerWidth = s.containerWidth
    ∧ (ungroupFirstItem s).padding = s.padding
    ∧ (ungroupFirstItem s).sepDropdownWidth = s.sepDropdownWidth
    ∧ (ungroupFirstItem s).items = s.items := by
  match hg : s.groupedItems with
  | [] => rw [ungroupFirstItem_nil hg]; exact ⟨rfl, rfl, rfl, rfl, rfl, rfl⟩
  | g :: gs =>
      rw [ungroupFirstItem_cons hg]
      by_cases hgs : gs = [] <;>
        simp [hgs, ungroupedAdd, updateFocusCycleableItems, childrenErase,
          childrenRemoveLast]

theorem groupLastItem_parts {s : ToolbarState} {x : TItem}
    (hx : s.ungroupedItems.getLast? = some x) :
    (groupLastItem s).ungroupedItems = s.ungroupedItems.dropLast
    ∧ (groupLastItem s).groupedItems = x :: s.groupedItems := by
  rw [groupLastItem_some hx]
  by_cases hg : s.groupedItems.length = 0 <;>
    simp [hg, ungroupedRemoveLast, updateFocusCycleableItems, childrenAdd]

theorem ungroupFirstItem_parts {s : ToolbarState} {g : TItem} {gs : List TItem}
    (hg : s.groupedItems = g :: gs) :
    (ungroupFirstItem s).ungroupedItems = s.ungroupedItems ++ [g]
    ∧ (ungroupFirstItem s).groupedItems = gs := by
  rw [ungroupFirstItem_cons hg]
  by_cases hgs : gs = [] <;>
    simp [hgs, ungroupedAdd, updateFocusCycleableItems, childrenErase,
      childrenRemoveLast]

/-- Both elementary moves leave the overall item sequence
`ungroupedItems ++ groupedItems` unchanged. -/
theorem groupLastItem_concat (s : ToolbarState) :
    (groupLastItem s).ungroupedItems ++ (groupLastItem s).groupedItems
      = s.ungroupedItems ++ s.groupedItems := by
  match hx : s.ungroupedItems.getLast? with
  | none => rw [groupLastItem_none hx]
  | some x =>
      have hp := groupLastItem_parts hx
      rw [hp.1, hp.2]
      rw [← List.dropLast_append_getLast? x hx]
      simp

theorem ungroupFirstItem_concat (s : ToolbarState) :
    (ungroupFirstItem s).ungroupedItems ++ (ungroupFirstItem s).groupedItems
      = s.ungroupedItems ++ s.groupedItems := by
  match hg : s.groupedItems with
  | [] => rw [ungroupFirstItem_nil hg]; simp [hg]
  | g :: gs =>
      have hp := ungroupFirstItem_parts hg
      rw [hp.1, hp.2]
      simp

theorem areItemsOverflowing_congr {s t : ToolbarState}
    (hu : t.ungroupedItems = s.ungroupedItems)
    (hg : t.groupedItems.length = s.groupedItems.length)
    (hw : t.containerWidth = s.containerWidth)
    (hp : t.padding = s.padding)
    (hd : t.sepDropdownWidth = s.sepDropdownWidth) :
    areItemsOverflowing t = areItemsOverflowing s := by
  simp only [areItemsOverflowing, lastChildRight, hu, hg, hw, hp, hd]

/-- Undoing the last speculative ungroup restores the exact item partition:
when grouped items exist, `_groupLastItem` after `_ungroupFirstItem` puts the
moved item back at the front of `groupedItems` and leaves both collections as
they were. -/
theorem undo_ungroup (s : ToolbarState) (h : s.groupedItems ≠ []) :
    (groupLastItem (ungroupFirstItem s)).ungroupedItems = s.ungroupedItems
    ∧ (groupLastItem (ungroupFirstItem s)).groupedItems = s.groupedItems := by
  match hg : s.groupedItems with
  | [] => exact absurd hg h
  | g :: gs =>
      have hp := ungroupFirstItem_parts hg
      have hlast : (ungroupFirstItem s).ungroupedItems.getLast? = some g := by
        rw [hp.1]; exact List.getLast?_concat _
      have hq := groupLastItem_parts hlast
      refine ⟨?_, ?_⟩
      · rw [hq.1, hp.1, List.dropLast_concat]
      · rw [hq.2, hp.2]

theorem undo_overflow (s : ToolbarState) (h : s.groupedItems ≠ []) :
    areItemsOverflowing (groupLastItem (ungroupFirstItem s)) = areItemsOverflowing s := by
  have hu := undo_ungroup s h
  have hf1 := ungroupFirstItem_fields s
  have hf2 := groupLastItem_fields (ungroupFirstItem s)
  exact areItemsOverflowing_congr hu.1 (by rw [hu.2])
    (by rw [hf2.2.2.1, hf1.2.2.1]) (by rw [hf2.2.2.2.1, hf1.2.2.2.1])
    (by rw [hf2.2.2.2.2.1, hf1.2.2.2.2.1])

/-- When the guard is initially false the grouping loop does nothing. -/
theorem groupLoop_id {s : ToolbarState} (h : areItemsOverflowing s = false) :
    groupLoop s = (s, 0) := by
  unfold groupLoop
  simp [h]

theorem groupLoop_pos {s : ToolbarState} (h : areItemsOverflowing s = true) :
    (groupLoop s).2 ≠ 0 := by
  unfold groupLoop
  simp [h]

/-- The grouping loop only stops when the toolbar no longer overflows. -/
theorem groupLoop_post (s : ToolbarState) :
    areItemsOverflowing (groupLoop s).1 = false := by
  by_cases h : areItemsOverflowing s
  · have ih := groupLoop_post (groupLastItem s)
    unfold groupLoop
    simpa [h] using ih
  · rw [groupLoop_id (by simpa using h)]
    simpa using h
termination_by s.ungroupedItems.length
decreasing_by exact groupLastItem_length s (overflow_ne_nil h)

theorem groupLoop_concat (s : ToolbarState) :
    (groupLoop s).1.ungroupedItems ++ (groupLoop s).1.groupedItems
      = s.ungroupedItems ++ s.groupedItems := by
  by_cases h : areItemsOverflowing s
  · have ih := groupLoop_concat (groupLastItem s)
    have hc := groupLastItem_concat s
    unfold groupLoop
    simpa [h, hc] using ih
  · rw [groupLoop_id (by simpa using h)]
termination_by s.ungroupedItems.length
decreasing_by exact groupLastItem_length s (overflow_ne_nil h)

theorem groupLoop_count (s : ToolbarState) :
    (groupLoop s).2 ≤ s.ungroupedItems.length := by
  by_cases h : areItemsOverflowing s
  · have ih := groupLoop_count (groupLastItem s)
    have hlen := groupLastItem_length s (overflow_ne_nil h)
    unfold groupLoop
    simp only [h, dite_true]
    omega
  · rw [groupLoop_id (by simpa using h)]
    simp
termination_by s.ungroupedItems.length
decreasing_by exact groupLastItem_length s (overflow_ne_nil h)

theorem groupLoop_resizeObserver (s : ToolbarState) :
    (groupLoop s).1.resizeObserver = s.resizeObserver := by
  by_cases h : areItemsOverflowing s
  · have ih := groupLoop_resizeObserver (groupLastItem s)
    have hf := (groupLastItem_fields s).2.1
    unfold groupLoop
    simpa [h, hf] using ih
  · rw [groupLoop_id (by simpa using h)]
termination_by s.ungroupedItems.length
decreasing_by exact groupLastItem_length s (overflow_ne_nil h)

theorem ungroupLoop_id {s : ToolbarState}
    (h : ¬ (s.groupedItems.length ≠ 0 ∧ ¬ areItemsOverflowing s)) :
    ungroupLoop s = (s, 0) := by
  unfold ungroupLoop
  exact dif_neg h

theorem ungroupLoop_step {s : ToolbarState}
    (h : s.groupedItems.length ≠ 0 ∧ ¬ areItemsOverflowing s) :
    ungroupLoop s =
      ((ungroupLoop (ungroupFirstItem s)).1, (ungroupLoop (ungroupFirstItem s)).2 + 1) := by
  conv_lhs => unfold ungroupLoop
  rw [dif_pos h]

theorem ungroupLoop_concat (s : ToolbarState) :
    (ungroupLoop s).1.ungroupedItems ++ (ungroupLoop s).1.groupedItems
      = s.ungroupedItems ++ s.groupedItems := by
  by_cases h : s.groupedItems.length ≠ 0 ∧ ¬ areItemsOverflowing s
  · have ih := ungroupLoop_concat (ungroupFirstItem s)
    have hc := ungroupFirstItem_concat s
    rw [ungroupLoop_step h]
    simpa [hc] using ih
  · rw [ungroupLoop_id h]
termination_by s.groupedItems.length
decreasing_by exact ungroupFirstItem_length s (fun hn => h.1 (by simp [hn]))

theorem ungroupLoop_count (s : ToolbarState) :
    (ungroupLoop s).2 ≤ s.groupedItems.length := by
  by_cases h : s.groupedItems.length ≠ 0 ∧ ¬ areItemsOverflowing s
  · have ih := ungroupLoop_count (ungroupFirstItem s)
    have hlen := ungroupFirstItem_length s (fun hn => h.1 (by simp [hn]))
    rw [ungroupLoop_step h]
    omega
  · rw [ungroupLoop_id h]
    simp
termination_by s.groupedItems.length
decreasing_by exact ungroupFirstItem_length s (fun hn => h.1 (by simp [hn]))

theorem ungroupLoop_resizeObserver (s : ToolbarState) :
    (ungroupLoop s).1.resizeObserver = s.resizeObserver := by
  by_cases h : s.groupedItems.length ≠ 0 ∧ ¬ areItemsOverflowing s
  · have ih := ungroupLoop_resizeObserver (ungroupFirstItem s)
    have hf := (ungroupFirstItem_fields s).2.1
    rw [ungroupLoop_step h]
    simpa [hf] using ih
  · rw [ungroupLoop_id h]
termination_by s.groupedItems.length
decreasing_by exact ungroupFirstItem_length s (fun hn => h.1 (by simp [hn]))

/-- The ungrouping phase of `_updateGrouping` (loop followed by the
single-item undo) never leaves the toolbar overflowing, provided it starts
from a non-overflowing state — which the `wereItemsGrouped` guard
guarantees. -/
theorem ungroupPhase_post (s : ToolbarState) (h : areItemsOverflowing s = false) :
    areItemsOverflowing
      (if areItemsOverflowing (ungroupLoop s).1 then groupLastItem (ungroupLoop s).1
       else (ungroupLoop s).1) = false := by
  by_cases hg : s.groupedItems.length ≠ 0
  · have hguard : s.groupedItems.length ≠ 0 ∧ ¬ areItemsOverflowing s := by
      exact ⟨hg, by simp [h]⟩
    have hstep : (ungroupLoop s).1 = (ungroupLoop (ungroupFirstItem s)).1 := by
      rw [ungroupLoop_step hguard]
    by_cases ht : areItemsOverflowing (ungroupFirstItem s)
    · have hstop : ungroupLoop (ungroupFirstItem s) = (ungroupFirstItem s, 0) := by
        apply ungroupLoop_id
        intro hc
        exact hc.2 ht
      rw [hstep, hstop]
      simp only [ht, if_true]
      have hnil : s.groupedItems ≠ [] := fun hn => hg (by simp [hn])
      rw [undo_overflow s hnil]
      exact h
    · have ih := ungroupPhase_post (ungroupFirstItem s) (by simpa using ht)
      rw [hstep]
      exact ih
  · have hid : ungroupLoop s = (s, 0) := by
      apply ungroupLoop_id
      intro hc
      exact hg hc.1
    rw [hid]
    simp [h]
termination_by s.groupedItems.length
decreasing_by exact ungroupFirstItem_length s (fun hn => hg (by simp [hn]))

theorem updateGrouping_resizeObserver (s : ToolbarState) :
    (updateGrouping s).resizeObserver = s.resizeObserver := by
  unfold updateGrouping
  by_cases ha : s.attached = false
  · rw [if_pos ha]
  · rw [if_neg ha]
    by_cases hz : (groupLoop s).2 = 0 ∧ (groupLoop s).1.groupedItems.length ≠ 0
    · rw [if_pos hz]
      by_cases hov : areItemsOverflowing (ungroupLoop (groupLoop s).1).1
      · rw [if_pos hov, (groupLastItem_fields _).2.1, ungroupLoop_resizeObserver,
          groupLoop_resizeObserver]
      · rw [if_neg hov, ungroupLoop_resizeObserver, groupLoop_resizeObserver]
    · rw [if_neg hz, groupLoop_resizeObserver]

/-! ### Theorems: the toolbar claims -/

/-- C2: on an attached toolbar a `_updateGrouping` pass — grouping while the
ungrouped items overflow (last ungrouped item to the front of the grouped
collection), then, only when nothing was grouped in the pass and grouped
items exist, speculatively ungrouping front-to-back while no overflow
results, with a single-item undo when the last speculative move caused
overflow — preserves the overall item sequence
`ungroupedItems ++ groupedItems` and always ends in a state that does not
overflow. -/
theorem C2_updateGrouping_pass (s : ToolbarState) (h : s.attached = true) :
    (updateGrouping s).ungroupedItems ++ (updateGrouping s).groupedItems
      = s.ungroupedItems ++ s.groupedItems
    ∧ areItemsOverflowing (updateGrouping s) = false := by
  have ha : ¬ (s.attached = false) := by simp [h]
  unfold updateGrouping
  rw [if_neg ha]
  by_cases hz : (groupLoop s).2 = 0 ∧ (groupLoop s).1.groupedItems.length ≠ 0
  · rw [if_pos hz]
    have hnov : areItemsOverflowing s = false := by
      cases hb : areItemsOverflowing s with
      | false => rfl
      | true => exact absurd hz.1 (groupLoop_pos hb)
    have hid : groupLoop s = (s, 0) := groupLoop_id hnov
    rw [hid]
    constructor
    · show (if areItemsOverflowing (ungroupLoop s).1 then
              groupLastItem (ungroupLoop s).1
            else (ungroupLoop s).1).ungroupedItems
          ++ (if areItemsOverflowing (ungroupLoop s).1 then
                groupLastItem (ungroupLoop s).1
              else (ungroupLoop s).1).groupedItems
          = s.ungroupedItems ++ s.groupedItems
      by_cases hov : areItemsOverflowing (ungroupLoop s).1
      · rw [if_pos hov, groupLastItem_concat, ungroupLoop_concat]
      · rw [if_neg hov, ungroupLoop_concat]
    · exact ungroupPhase_post s hnov
  · rw [if_neg hz]
    exact ⟨groupLoop_concat s, groupLoop_post s⟩

/-- C2 witness: a concrete attached, rendered toolbar whose two 3-wide items
overflow the 4-wide container. -/
theorem C2_updateGrouping_witness :
    (updateGrouping exToolbar).ungroupedItems ++ (updateGrouping exToolbar).groupedItems
      = exToolbar.ungroupedItems ++ exToolbar.groupedItems
    ∧ areItemsOverflowing (updateGrouping exToolbar) = false :=
  C2_updateGrouping_pass exToolbar rfl

/-- C3: the claim states that an item removed from `ToolbarView#items` at
index `i` is removed from whichever of the two collections holds it, so that
`items = ungroupedItems ++ groupedItems` is preserved by every removal. The
`remove` handler compares `index > ungroupedItems.length`, so at the boundary
`index = ungroupedItems.length` — where the removed item is the first
*grouped* item — it calls `ungroupedItems.remove` on an item that collection
does not hold: nothing leaves `groupedItems`, and the partition invariant
(stated by the handler's own code comment) breaks. Evaluated here on a
toolbar holding `[itemA, itemB]` with `itemB` grouped, removing `itemB` at
index 1 (the toolbar element is detached, so `_updateGrouping` returns
immediately and the handler's effect is isolated; with the real collection
semantics the same call surfaces a collection-remove-404 error instead, and
in either semantics `itemB` is not removed from `groupedItems`). -/
theorem C3_remove_at_boundary_breaks_partition :
    (boundaryToolbar.items
      = boundaryToolbar.ungroupedItems ++ boundaryToolbar.groupedItems)
    ∧ ((itemsRemove boundaryToolbar itemB 1).items = [itemA])
    ∧ ((itemsRemove boundaryToolbar itemB 1).ungroupedItems = [itemA])
    ∧ ((itemsRemove boundaryToolbar itemB 1).groupedItems = [itemB])
    ∧ ((itemsRemove boundaryToolbar itemB 1).items
        ≠ (itemsRemove boundaryToolbar itemB 1).ungroupedItems
          ++ (itemsRemove boundaryToolbar itemB 1).groupedItems) :=
  ⟨rfl, rfl, rfl, rfl, by decide⟩

/-- Accumulator characterization of `fillFromConfig`'s fold. -/
theorem fillFromConfig_aux (factoryHas : String → Bool) (config : List String) :
    ∀ acc : List ToolbarItemView × List String,
      config.foldl (fillStep factoryHas) acc
        = (acc.1 ++ config.filterMap (configEntry factoryHas),
           acc.2 ++ config.filter (fun n => !(n == "|") && !(factoryHas n))) := by
  induction config with
  | nil => intro acc; simp
  | cons n ns ih =>
      intro acc
      by_cases h1 : n = "|"
      · simp [fillStep, h1, configEntry, ih]
      · by_cases h2 : factoryHas n
        · simp [fillStep, h1, h2, configEntry, ih]
        · simp [fillStep, h1, h2, configEntry, ih]

/-- C7: `fillFromConfig` adds, in configuration order, a separator for every
`"|"` sentinel and the factory item for every recognized name; every
unrecognized name only produces a warning (collected in the second
component), never an exception, so the resulting items are exactly the
separators plus the recognized names in order. Concretely, the configuration
`[bold, italic, "|", link, foo]` with a factory recognizing bold, italic and
link yields `[Bold, Italic, Separator, Link]` with one warning for `foo`. -/
theorem C7_fillFromConfig_exact (config : List String) (factoryHas : String → Bool) :
    ((fillFromConfig config factoryHas).1 = config.filterMap (configEntry factoryHas))
    ∧ ((fillFromConfig config factoryHas).2
        = config.filter (fun n => !(n == "|") && !(factoryHas n)))
    ∧ (fillFromConfig ["bold", "italic", "|", "link", "foo"]
          (fun n => n == "bold" || n == "italic" || n == "link")
        = ([ToolbarItemView.component "bold", ToolbarItemView.component "italic",
            ToolbarItemView.separator, ToolbarItemView.component "link"], ["foo"])) := by
  refine ⟨?_, ?_, by decide⟩
  · have h := fillFromConfig_aux factoryHas config ([], [])
    simpa [fillFromConfig] using congrArg Prod.fst h
  · have h := fillFromConfig_aux factoryHas config ([], [])
    simpa [fillFromConfig] using congrArg Prod.snd h

/-- C8: after each structural change to `ungroupedItems` or to the toolbar's
`children` collection — the collections on which the `DynamicGrouping`
constructor registers `_updateFocusCycleableItems` as the `add` / `remove`
handler — the `focusables` collection equals the ungrouped items in order
followed by the grouped-items dropdown exactly when grouped items exist; and
it is fully recomputed, i.e. independent of the previous `focusables`
value. -/
theorem C8_focusables_derived (s : ToolbarState) (x : TItem) (i : Nat) (c : TChild)
    (f : List Focusable) :
    ((ungroupedAdd s x).focusables = focusablesSpec (ungroupedAdd s x))
    ∧ ((ungroupedInsert s i x).focusables = focusablesSpec (ungroupedInsert s i x))
    ∧ ((ungroupedRemoveLast s).focusables = focusablesSpec (ungroupedRemoveLast s))
    ∧ ((ungroupedErase s x).focusables = focusablesSpec (ungroupedErase s x))
    ∧ ((childrenAdd s c).focusables = focusablesSpec (childrenAdd s c))
    ∧ ((childrenErase s c).focusables = focusablesSpec (childrenErase s c))
    ∧ ((childrenRemoveLast s).focusables = focusablesSpec (childrenRemoveLast s))
    ∧ ((ungroupedAdd { s with focusables := f } x).focusables
        = (ungroupedAdd s x).focusables) :=
  ⟨rfl, rfl, rfl, rfl, rfl, rfl, rfl, rfl⟩

/-- C9: the grouping pass terminates on every toolbar state: an empty
ungrouped collection can never report overflow (the loop guard), each
`_groupLastItem` call strictly shrinks `ungroupedItems`, so the grouping loop
runs at most `ungroupedItems.length` iterations; symmetrically each
`_ungroupFirstItem` call strictly shrinks `groupedItems` and the ungrouping
loop runs at most `groupedItems.length` iterations. -/
theorem C9_grouping_loops_bounded (s : ToolbarState) :
    (s.ungroupedItems = [] → areItemsOverflowing s = false)
    ∧ (s.ungroupedItems ≠ [] →
        (groupLastItem s).ungroupedItems.length < s.ungroupedItems.length)
    ∧ ((groupLoop s).2 ≤ s.ungroupedItems.length)
    ∧ (s.groupedItems ≠ [] →
        (ungroupFirstItem s).groupedItems.length < s.groupedItems.length)
    ∧ ((ungroupLoop s).2 ≤ s.groupedItems.length) :=
  ⟨fun h => areItemsOverflowing_nil h, groupLastItem_length s, groupLoop_count s,
   ungroupFirstItem_length s, ungroupLoop_count s⟩

/-- C9 witness: the bounds evaluated on concrete toolbars with nonempty
ungrouped and grouped collections (and an empty toolbar for the guard). -/
theorem C9_loops_bounded_witness :
    (areItemsOverflowing (initToolbar 3 1 1) = false)
    ∧ ((groupLastItem exToolbar).ungroupedItems.length
        < exToolbar.ungroupedItems.length)
    ∧ ((groupLoop exToolbar).2 ≤ exToolbar.ungroupedItems.length)
    ∧ ((ungroupFirstItem boundaryToolbar).groupedItems.length
        < boundaryToolbar.groupedItems.length)
    ∧ ((ungroupLoop boundaryToolbar).2 ≤ boundaryToolbar.groupedItems.length) :=
  ⟨(C9_grouping_loops_bounded (initToolbar 3 1 1)).1 rfl,
   (C9_grouping_loops_bounded exToolbar).2.1 (by decide),
   (C9_grouping_loops_bounded exToolbar).2.2.1,
   (C9_grouping_loops_bounded boundaryToolbar).2.2.2.1 (by decide),
   (C9_grouping_loops_bounded boundaryToolbar).2.2.2.2⟩

/-- C10: `DynamicGrouping#resizeObserver` stays `null` from construction
through item insertions, removals and grouping passes — only `render()`
(through `_enableGroupingOnResize`) replaces it — and
`DynamicGrouping.destroy` calls `resizeObserver.disconnect()`
unconditionally, so `destroy()` before `render()` throws a `TypeError`,
while after `render()` it succeeds. -/
theorem C10_destroy_requires_render (w p sd : Nat) (s : ToolbarState) (x : TItem)
    (i : Nat) (b : Bool) :
    ((initToolbar w p sd).resizeObserver = none)
    ∧ ((itemsAdd s x i).resizeObserver = s.resizeObserver)
    ∧ ((itemsRemove s x i).resizeObserver = s.resizeObserver)
    ∧ ((updateGrouping s).resizeObserver = s.resizeObserver)
    ∧ (s.resizeObserver = none →
        destroyGrouping s = Except.error
          "TypeError: cannot call disconnect of null resizeObserver")
    ∧ (∃ t2, destroyGrouping (renderToolbar s b) = Except.ok t2) := by
  refine ⟨rfl, ?_, ?_, updateGrouping_resizeObserver s, ?_, ?_⟩
  · simp only [itemsAdd]
    rw [updateGrouping_resizeObserver]
    split
    · rfl
    · simp [ungroupedInsert, updateFocusCycleableItems]
  · simp only [itemsRemove]
    rw [updateGrouping_resizeObserver]
    split
    · rfl
    · simp [ungroupedErase, updateFocusCycleableItems]
  · intro hnone
    simp only [destroyGrouping]
    rw [hnone]
  · have hro : (renderToolbar s b).resizeObserver = some 0 := by
      simp only [renderToolbar]
      rw [updateGrouping_resizeObserver]
    refine ⟨{ renderToolbar s b with dropdownDestroyed := true }, ?_⟩
    simp only [destroyGrouping]
    rw [hro]

/-- C10 witness: a freshly constructed grouping toolbar has a `null`
`resizeObserver`, destroying it throws, and destroying after `render`
succeeds. -/
theorem C10_destroy_witness :
    ((initToolbar 10 1 2).resizeObserver = none)
    ∧ (destroyGrouping (initToolbar 10 1 2)
        = Except.error "TypeError: cannot call disconnect of null resizeObserver")
    ∧ (∃ t2, destroyGrouping (renderToolbar (initToolbar 10 1 2) true)
        = Except.ok t2) :=
  ⟨(C10_destroy_requires_render 10 1 2 (initToolbar 10 1 2) itemA 0 true).1,
   (C10_destroy_requires_render 10 1 2 (initToolbar 10 1 2) itemA 0 true).2.2.2.2.1 rfl,
   (C10_destroy_requires_render 10 1 2 (initToolbar 10 1 2) itemA 0 true).2.2.2.2.2⟩

end CKToolbar
